import Mathlib

/-!
Verification of the FoodieVent status/inventory core against its specification.

The development shallowly embeds the core of the repository
`a2_starter_code/a2_group11/website`:

- `models.py`: the `EventStatus` and `TicketStatus` enumerations and the
  persisted fields of `Event` and `Order` that the core logic reads or writes
  (fields that no modelled operation touches, such as `title` or `venue`,
  are omitted; `total_tickets` and `tickets_purchased` are non-nullable
  integer columns, so they are embedded as `Int`).
- `events.py`: the Status Engine `live_status` and the cancel/reopen branches
  of the `update` route.
- `orders.py`: `cancel_order` and `purchase_tickets`.
- `forms.py`: the `PasswordStrength` validator and the `PurchaseTicketForm`
  presence check.

Wall-clock instants (`datetime` values) are embedded as `Int`, which carries
exactly the order structure the code uses.  Fixed-point currency
(`Numeric(10, 2)`) is embedded as `Int` (an amount in cents); the code only
multiplies a price by an integer quantity, which is exact in cents.
The SQLAlchemy session is embedded as an explicit `Store` holding the event
and order tables; mutating a loaded row becomes replacing the row with the
same primary key.
-/

namespace FoodieVent

/-- models.py `EventStatus` enumeration. -/
inductive EventStatus
  | OPEN
  | INACTIVE
  | SOLDOUT
  | CANCELLED
deriving DecidableEq, Repr

/-- models.py `TicketStatus` enumeration. -/
inductive TicketStatus
  | ACTIVE
  | INACTIVE
  | CANCELLED
deriving DecidableEq, Repr

/-- models.py `Event`: the columns read or written by the modelled core
(`live_status`, purchase, cancel order, cancel/reopen event). -/
structure Event where
  id : Nat
  end_time : Int
  total_tickets : Int
  ticket_price : Int
  status : EventStatus
  status_date : Int
deriving DecidableEq, Repr

/-- models.py `Order`: the columns read or written by the modelled core. -/
structure Order where
  id : Nat
  event_id : Nat
  user_id : Nat
  tickets_purchased : Int
  purchase_ticket_price : Int
  purchased_amount : Int
  ticket_status : TicketStatus
  booking_time : Int
deriving DecidableEq, Repr

/-- The persistence store: the `events` and `orders` tables. -/
structure Store where
  events : List Event
  orders : List Order
deriving DecidableEq, Repr

/-- Python `x or 0` on an integer: `0` is falsy, every other integer is
truthy, so the expression maps `0` to `0` and is the identity otherwise. -/
def pyOr0 (x : Int) : Int := if x = 0 then 0 else x

/-- Row lookup by primary key, as the ORM relationship `order.event` /
`db.session.get(Event, event_id)` resolves it. -/
def findEvent (events : List Event) (eid : Nat) : Option Event :=
  events.find? (fun e => e.id == eid)

/-- Row lookup by primary key for orders (`db.session.get(Order, order_id)`). -/
def findOrder (orders : List Order) (oid : Nat) : Option Order :=
  orders.find? (fun o => o.id == oid)

/-- Writing a mutated event row back to the store: every row with the same
primary key is replaced (primary keys are unique in the database; the model
does not depend on it because replacement preserves the key). -/
def setEvent (events : List Event) (ev : Event) : List Event :=
  events.map (fun x => if x.id == ev.id then ev else x)

/-- events.py `live_status`, first loop (lines 205-227): the new status of one
event as a function of the clock, its current status, inventory and end time. -/
def esRule (now : Int) (e : Event) : EventStatus :=
  if e.status = EventStatus.CANCELLED then
    if now > e.end_time then EventStatus.INACTIVE else EventStatus.CANCELLED
  else if pyOr0 e.total_tickets ≤ 0 then EventStatus.SOLDOUT
  else if now ≤ e.end_time then EventStatus.OPEN
  else EventStatus.INACTIVE

/-- events.py `live_status` (lines 205-227): recompute the status of one event and,
when it changed, stamp `status_date` to `now`. -/
def stepEvent (now : Int) (e : Event) : Event :=
  let ns := esRule now e
  if e.status ≠ ns then { e with status := ns, status_date := now } else e

/-- events.py `live_status`, second loop (lines 230-261): the new ticket
status of one order from the (already recomputed) status of its parent
event, the current ticket status of the order, and the clock. -/
def tsRule (now : Int) (ev : Event) (ts : TicketStatus) : TicketStatus :=
  if ev.status = EventStatus.CANCELLED then TicketStatus.CANCELLED
  else if ev.status = EventStatus.INACTIVE then TicketStatus.INACTIVE
  else if ts = TicketStatus.CANCELLED then
    if now > ev.end_time then TicketStatus.INACTIVE else TicketStatus.CANCELLED
  else if now ≤ ev.end_time then TicketStatus.ACTIVE
  else TicketStatus.INACTIVE

/-- events.py `live_status` (lines 230-261): recompute the ticket status of one
order against the already-updated events table.  In the code `order.event`
is the very event object mutated by the first loop, which the lookup into the
updated table models; a dangling `event_id` would crash the Python code and is
modelled as leaving the order unchanged. -/
def stepOrder (now : Int) (events : List Event) (o : Order) : Order :=
  match findEvent events o.event_id with
  | none => o
  | some ev =>
    let ns := tsRule now ev o.ticket_status
    if o.ticket_status ≠ ns then { o with ticket_status := ns } else o

/-- events.py `live_status` (lines 197-264): recompute the status of every event,
then the ticket status of every order against the updated events, and commit. -/
def live_status (now : Int) (s : Store) : Store :=
  { events := s.events.map (stepEvent now)
    orders := s.orders.map (stepOrder now (s.events.map (stepEvent now))) }

/-- forms.py `PurchaseTicketForm` (lines 317-320): `tickets_purchased` is an
integer field whose only validator is `DataRequired`, which accepts any value
that is present and truthy; for a parsed integer that means any nonzero
integer (zero is falsy and rejected, negative integers pass). -/
def purchaseFormValid (q : Int) : Bool := !(q == 0)

/-- orders.py `purchase_tickets` lines 57-70: the `Order(...)` snapshot the
route constructs (the autoincremented primary key is modelled as the current
table length; orders are never deleted, so it is fresh). -/
def newOrder (now : Int) (uid : Nat) (q : Int) (s : Store) (ev : Event) :
    Order :=
  { id := s.orders.length
    event_id := ev.id
    user_id := uid
    tickets_purchased := q
    purchase_ticket_price := ev.ticket_price
    purchased_amount := ev.ticket_price * q
    ticket_status := TicketStatus.ACTIVE
    booking_time := now }

/-- orders.py `purchase_tickets` lines 72-75: the event row after
`event.total_tickets -= tickets` and, when the remainder is exactly 0, the
eager SOLDOUT assignment. -/
def decrementedEvent (ev : Event) (q : Int) : Event :=
  { ev with
    total_tickets := ev.total_tickets - q
    status :=
      if ev.total_tickets - q = 0 then EventStatus.SOLDOUT else ev.status }

/-- orders.py `purchase_tickets` (lines 46-79), the state committed at
line 79 given a validly submitted quantity `q`: fail (flash and redirect,
nothing mutated) when `q > event.total_tickets`, otherwise create the order
snapshot, decrement the inventory and, when the remaining inventory is
exactly 0, set the event status to SOLDOUT in the same commit.  The
boolean records whether the purchase succeeded. -/
def purchaseCommit (now : Int) (eid uid : Nat) (q : Int) (s : Store) :
    Store × Bool :=
  match findEvent s.events eid with
  | none => (s, false)
  | some ev =>
    if q > ev.total_tickets then (s, false)
    else
      ({ events := setEvent s.events (decrementedEvent ev q)
         orders := s.orders ++ [newOrder now uid q s ev] }, true)

/-- orders.py `purchase_tickets` route on a validly submitted quantity: the
commit above, followed by `live_status` on success (line 82); the
insufficient-inventory path (lines 50-53) redirects without running
`live_status`. -/
def purchase_tickets (now : Int) (eid uid : Nat) (q : Int) (s : Store) :
    Store :=
  let r := purchaseCommit now eid uid q s
  if r.2 then live_status now r.1 else r.1

/-- orders.py `cancel_order` (lines 20-32): when the ticket status of the order is
not already CANCELLED, set it to CANCELLED and add its `tickets_purchased`
back onto the `total_tickets` of the parent event; otherwise change nothing.  A
missing order or a dangling event reference would crash the Python code and
is modelled as leaving the store unchanged. -/
def cancel_order (oid : Nat) (s : Store) : Store :=
  match findOrder s.orders oid with
  | none => s
  | some o =>
    if o.ticket_status ≠ TicketStatus.CANCELLED then
      match findEvent s.events o.event_id with
      | none => s
      | some ev =>
        { events :=
            setEvent s.events
              { ev with total_tickets := ev.total_tickets + o.tickets_purchased }
          orders :=
            s.orders.map (fun x =>
              if x.id == oid then { o with ticket_status := TicketStatus.CANCELLED }
              else x) }
    else s

/-- events.py `update`, cancel branch (lines 120-144): the ACTIVE orders of
the event being cancelled. -/
def activeOrders (eid : Nat) (s : Store) : List Order :=
  s.orders.filter (fun o =>
    o.event_id == eid && o.ticket_status == TicketStatus.ACTIVE)

/-- events.py `update` line 133: the tickets restocked by cancelling. -/
def ticketsToReturn (eid : Nat) (s : Store) : Int :=
  ((activeOrders eid s).map (fun o => pyOr0 o.tickets_purchased)).sum

/-- events.py `update` line 135: the nominal refund reported by cancelling. -/
def totalRefund (eid : Nat) (s : Store) : Int :=
  ((activeOrders eid s).map (fun o => pyOr0 o.purchased_amount)).sum

/-- events.py `update`, cancel branch (lines 117-144, committed at 155): when
the status of the event is not already CANCELLED, restock the tickets of its
ACTIVE orders onto `total_tickets` and set the ticket status of those orders to
CANCELLED.  Note that the branch never assigns `event.status`: the code does
not mark the event CANCELLED (the ordinary form field edits, which the
claims do not concern, are omitted). -/
def update_cancel_event (eid : Nat) (s : Store) : Store :=
  match findEvent s.events eid with
  | none => s
  | some ev =>
    if ev.status ≠ EventStatus.CANCELLED then
      { events :=
          setEvent s.events
            { ev with
              total_tickets := pyOr0 ev.total_tickets + pyOr0 (ticketsToReturn eid s) }
        orders :=
          s.orders.map (fun o =>
            if o.event_id == ev.id && o.ticket_status == TicketStatus.ACTIVE
            then { o with ticket_status := TicketStatus.CANCELLED }
            else o) }
    else s

/-- events.py `update`, reopen branch (lines 147-152): when the event is
CANCELLED, set its status to OPEN. -/
def update_reopen_event (eid : Nat) (s : Store) : Store :=
  match findEvent s.events eid with
  | none => s
  | some ev =>
    if ev.status = EventStatus.CANCELLED then
      { s with events := setEvent s.events { ev with status := EventStatus.OPEN } }
    else s

/-- events.py `update` route, cancel submission end to end: the commit
followed by the `live_status` call at line 158. -/
def cancel_event_route (now : Int) (eid : Nat) (s : Store) : Store :=
  live_status now (update_cancel_event eid s)

/-- events.py `update` route, reopen submission end to end: the commit
followed by the `live_status` call at line 158. -/
def reopen_event_route (now : Int) (eid : Nat) (s : Store) : Store :=
  live_status now (update_reopen_event eid s)

/-- Python regex class `[a-z]` on an ASCII character. -/
def isLowerAZ (c : Char) : Bool := 'a' ≤ c && c ≤ 'z'

/-- Python regex class `[A-Z]` on an ASCII character. -/
def isUpperAZ (c : Char) : Bool := 'A' ≤ c && c ≤ 'Z'

/-- Python regex class `\d` on an ASCII character. -/
def isDigit09 (c : Char) : Bool := '0' ≤ c && c ≤ '9'

/-- Python regex class `\w` (word character) on an ASCII character. -/
def isWordChar (c : Char) : Bool :=
  isLowerAZ c || isUpperAZ c || isDigit09 c || c == '_'

/-- Python regex class `\s` (whitespace) on an ASCII character. -/
def isSpaceChar (c : Char) : Bool :=
  c == ' ' || c == '\t' || c == '\n' || c == '\r' || c == '\x0b' || c == '\x0c'

/-- Python regex class `[^\w\s]` (symbol/punctuation) used by
`PasswordStrength`. -/
def isSymbolChar (c : Char) : Bool := !isWordChar c && !isSpaceChar c

/-- forms.py `PasswordStrength` lines 107-112: how many of the four character
classes occur in the password (a Python sum of four booleans). -/
def classCount (pwd : List Char) : Nat :=
  (if pwd.any isLowerAZ then 1 else 0) + (if pwd.any isUpperAZ then 1 else 0) +
    (if pwd.any isDigit09 then 1 else 0) + (if pwd.any isSymbolChar then 1 else 0)

/-- Python `str.lower()` on ASCII text. -/
def pyLower (l : List Char) : List Char := l.map Char.toLower

/-- Python `str.strip()`: drop whitespace from both ends. -/
def pyStrip (l : List Char) : List Char :=
  ((l.dropWhile isSpaceChar).reverse.dropWhile isSpaceChar).reverse

/-- Python substring test `needle in hay` on strings. -/
def containsSub (hay needle : List Char) : Bool :=
  (List.range (hay.length + 1)).any (fun i => needle.isPrefixOf (hay.drop i))

/-- Python `email.split("@")[0]`: the characters before the first `@`
(the whole string when there is no `@`). -/
def localPart (em : List Char) : List Char := em.takeWhile (fun c => !(c == '@'))

/-- forms.py `PasswordStrength` lines 117-124: the tokens the password must
not contain, in order: first name, surname, email local part. -/
def blockedTokens (fn sn em : List Char) : List (List Char) :=
  [fn, sn, localPart em]

/-- forms.py `PasswordStrength.__call__` (lines 101-130) with
`min_length = 8`, as instantiated by `RegisterForm`: `true` means the
validator raises no `ValidationError`. -/
def validate_password (pwd fn sn em : List Char) : Bool :=
  if pwd.length < 8 then false
  else if classCount pwd < 3 then false
  else if (blockedTokens fn sn em).any (fun token =>
      let t := pyStrip (pyLower token)
      !t.isEmpty && decide (3 ≤ t.length) && containsSub (pyLower pwd) t) then
    false
  else true

/-- The safety property of spec section 8: no order is ACTIVE while its
parent event is CANCELLED or INACTIVE. -/
def Inv (s : Store) : Prop :=
  ∀ o ∈ s.orders, o.ticket_status = TicketStatus.ACTIVE →
    ∀ ev, findEvent s.events o.event_id = some ev →
      ev.status ≠ EventStatus.CANCELLED ∧ ev.status ≠ EventStatus.INACTIVE

/-- The stores reachable from `s0` by the mutating operations of the system: a
Status Engine pass, the purchase route, the cancel-order route, and the
cancel/reopen submissions of the update route (each route as the code runs
it, including its trailing `live_status` call where the code makes one). -/
inductive Reachable (s0 : Store) : Store → Prop
  | base : Reachable s0 s0
  | refresh (now : Int) {s : Store} :
      Reachable s0 s → Reachable s0 (live_status now s)
  | purchase (now : Int) (eid uid : Nat) (q : Int) {s : Store} :
      Reachable s0 s → Reachable s0 (purchase_tickets now eid uid q s)
  | cancelOrder (oid : Nat) {s : Store} :
      Reachable s0 s → Reachable s0 (cancel_order oid s)
  | cancelEvent (now : Int) (eid : Nat) {s : Store} :
      Reachable s0 s → Reachable s0 (cancel_event_route now eid s)
  | reopenEvent (now : Int) (eid : Nat) {s : Store} :
      Reachable s0 s → Reachable s0 (reopen_event_route now eid s)

/-- A store on which `live_status` is not idempotent: one CANCELLED event
whose end time has passed and whose inventory is 0. -/
def c3Store : Store :=
  { events := [{ id := 1, end_time := 0, total_tickets := 0, ticket_price := 10,
                 status := EventStatus.CANCELLED, status_date := 0 }]
    orders := [] }

/-- An ordinary mid-sale store: an OPEN event with inventory left and one
ACTIVE order. -/
def sampleStore : Store :=
  { events := [{ id := 1, end_time := 10, total_tickets := 3, ticket_price := 7,
                 status := EventStatus.OPEN, status_date := 0 }]
    orders := [{ id := 1, event_id := 1, user_id := 2, tickets_purchased := 2,
                 purchase_ticket_price := 7, purchased_amount := 14,
                 ticket_status := TicketStatus.ACTIVE, booking_time := 0 }] }

/-- The cancel-event scenario of the spec: an OPEN event with two ACTIVE orders of
3 and 5 tickets at a price of 10 (inventory already sold down to 0). -/
def c6Store : Store :=
  { events := [{ id := 1, end_time := 100, total_tickets := 0, ticket_price := 10,
                 status := EventStatus.OPEN, status_date := 0 }]
    orders :=
      [{ id := 1, event_id := 1, user_id := 2, tickets_purchased := 3,
         purchase_ticket_price := 10, purchased_amount := 30,
         ticket_status := TicketStatus.ACTIVE, booking_time := 0 },
       { id := 2, event_id := 1, user_id := 3, tickets_purchased := 5,
         purchase_ticket_price := 10, purchased_amount := 50,
         ticket_status := TicketStatus.ACTIVE, booking_time := 0 }] }

/-- An OPEN event with a ticket price of 0 and 5 remaining tickets. -/
def c10Store : Store :=
  { events := [{ id := 1, end_time := 100, total_tickets := 5, ticket_price := 0,
                 status := EventStatus.OPEN, status_date := 0 }]
    orders := [] }

theorem findEvent_id {events : List Event} {k : Nat} {ev : Event}
    (h : findEvent events k = some ev) : ev.id = k := by
  unfold findEvent at h
  simpa using List.find?_some h

theorem findOrder_id {orders : List Order} {k : Nat} {o : Order}
    (h : findOrder orders k = some o) : o.id = k := by
  unfold findOrder at h
  simpa using List.find?_some h

theorem findEvent_map (g : Event → Event) (hg : ∀ e, (g e).id = e.id)
    (k : Nat) (l : List Event) :
    findEvent (l.map g) k = (findEvent l k).map g := by
  induction l with
  | nil => rfl
  | cons a l ih =>
    unfold findEvent at ih ⊢
    simp only [List.map_cons, List.find?_cons, hg a]
    cases hpa : (a.id == k) with
    | true => rfl
    | false => exact ih

theorem findOrder_map (g : Order → Order) (hg : ∀ o, (g o).id = o.id)
    (k : Nat) (l : List Order) :
    findOrder (l.map g) k = (findOrder l k).map g := by
  induction l with
  | nil => rfl
  | cons a l ih =>
    unfold findOrder at ih ⊢
    simp only [List.map_cons, List.find?_cons, hg a]
    cases hpa : (a.id == k) with
    | true => rfl
    | false => exact ih

theorem setEvent_pres_id (ev2 : Event) :
    ∀ x : Event, (if x.id == ev2.id then ev2 else x).id = x.id := by
  intro x
  split
  next hx => exact (eq_of_beq hx).symm
  next => rfl

theorem findEvent_setEvent_map (events : List Event) (ev2 : Event) (k : Nat) :
    findEvent (setEvent events ev2) k =
      (findEvent events k).map (fun x => if x.id == ev2.id then ev2 else x) := by
  unfold setEvent
  exact findEvent_map _ (setEvent_pres_id ev2) k events

theorem findEvent_setEvent {events : List Event} {k : Nat} {ev : Event}
    (ev2 : Event) (h : findEvent events k = some ev) (hid : ev2.id = ev.id) :
    findEvent (setEvent events ev2) k = some ev2 := by
  rw [findEvent_setEvent_map, h]
  simp [hid]

theorem stepEvent_eq (now : Int) (e : Event) :
    stepEvent now e =
      { e with
        status := esRule now e
        status_date := if esRule now e = e.status then e.status_date else now } := by
  unfold stepEvent
  dsimp only
  split
  next h => rw [if_neg (Ne.symm h)]
  next h =>
    have h2 : e.status = esRule now e := not_ne_iff.mp h
    rw [← h2, if_pos rfl]

theorem stepOrder_none {now : Int} {events : List Event} {o : Order}
    (h : findEvent events o.event_id = none) : stepOrder now events o = o := by
  unfold stepOrder
  rw [h]

theorem stepOrder_eq {now : Int} {events : List Event} {o : Order} {ev : Event}
    (h : findEvent events o.event_id = some ev) :
    stepOrder now events o =
      { o with ticket_status := tsRule now ev o.ticket_status } := by
  unfold stepOrder
  rw [h]
  dsimp only
  split
  next => rfl
  next h2 =>
    have h3 : o.ticket_status = tsRule now ev o.ticket_status := not_ne_iff.mp h2
    rw [← h3]

theorem stepOrder_event_id (now : Int) (events : List Event) (o : Order) :
    (stepOrder now events o).event_id = o.event_id := by
  cases h : findEvent events o.event_id with
  | none => rw [stepOrder_none h]
  | some ev => rw [stepOrder_eq h]

theorem stepOrder_ticket_status {now : Int} {events : List Event} {o : Order}
    {ev : Event} (h : findEvent events o.event_id = some ev) :
    (stepOrder now events o).ticket_status = tsRule now ev o.ticket_status := by
  rw [stepOrder_eq h]

theorem esRule_claim (now : Int) (e : Event) :
    esRule now e =
      (if e.status = EventStatus.CANCELLED then
        if now ≤ e.end_time then EventStatus.CANCELLED else EventStatus.INACTIVE
      else if e.total_tickets ≤ 0 then EventStatus.SOLDOUT
      else if now ≤ e.end_time then EventStatus.OPEN
      else EventStatus.INACTIVE) := by
  unfold esRule pyOr0
  split_ifs <;> first | rfl | omega

theorem tsRule_claim (now : Int) (ev : Event) (ts : TicketStatus) :
    tsRule now ev ts =
      (if ev.status = EventStatus.CANCELLED then TicketStatus.CANCELLED
      else if ev.status = EventStatus.INACTIVE then TicketStatus.INACTIVE
      else if ts = TicketStatus.CANCELLED then
        if now ≤ ev.end_time then TicketStatus.CANCELLED else TicketStatus.INACTIVE
      else if now ≤ ev.end_time then TicketStatus.ACTIVE
      else TicketStatus.INACTIVE) := by
  unfold tsRule
  split_ifs <;> first | rfl | omega

theorem esRule_stable (now : Int) (e : Event) (d : Int)
    (h : ¬(e.status = EventStatus.CANCELLED ∧ e.end_time < now ∧
            e.total_tickets ≤ 0)) :
    esRule now { e with status := esRule now e, status_date := d } =
      esRule now e := by
  unfold esRule pyOr0
  dsimp only
  split_ifs <;> simp_all <;> omega

theorem stepEvent_stable (now : Int) (e : Event)
    (h : ¬(e.status = EventStatus.CANCELLED ∧ e.end_time < now ∧
            e.total_tickets ≤ 0)) :
    stepEvent now (stepEvent now e) = stepEvent now e := by
  rw [stepEvent_eq now e, stepEvent_eq now, esRule_stable now e _ h]
  dsimp only
  rw [if_pos rfl]

theorem tsRule_idem (now : Int) (ev : Event) (ts : TicketStatus) :
    tsRule now ev (tsRule now ev ts) = tsRule now ev ts := by
  unfold tsRule
  split_ifs <;> first | rfl | (exfalso; omega) | simp_all

theorem stepOrder_idem (now : Int) (events : List Event) (o : Order) :
    stepOrder now events (stepOrder now events o) = stepOrder now events o := by
  cases hfe : findEvent events o.event_id with
  | none =>
    rw [stepOrder_none hfe]
    exact stepOrder_none hfe
  | some ev =>
    have hfe2 : findEvent events (stepOrder now events o).event_id = some ev := by
      rw [stepOrder_event_id, hfe]
    rw [stepOrder_eq hfe2, stepOrder_eq hfe]
    dsimp only
    rw [tsRule_idem]

theorem tsRule_active {now : Int} {ev : Event} {ts : TicketStatus}
    (h : tsRule now ev ts = TicketStatus.ACTIVE) :
    ev.status ≠ EventStatus.CANCELLED ∧ ev.status ≠ EventStatus.INACTIVE := by
  unfold tsRule at h
  split_ifs at h <;> simp_all

theorem inv_live_status (now : Int) (s : Store) : Inv (live_status now s) := by
  intro o2 ho2 hact ev hev
  obtain ⟨o, ho, rfl⟩ := List.mem_map.mp ho2
  rw [stepOrder_event_id] at hev
  have hev2 : findEvent (s.events.map (stepEvent now)) o.event_id = some ev := hev
  have hts := @stepOrder_ticket_status now _ _ _ hev2
  rw [hact] at hts
  exact tsRule_active hts.symm

theorem cancel_order_noop {oid : Nat} {s : Store} {o : Order}
    (h : findOrder s.orders oid = some o)
    (hc : o.ticket_status = TicketStatus.CANCELLED) : cancel_order oid s = s := by
  unfold cancel_order
  rw [h]
  dsimp only
  rw [if_neg (by simp [hc])]

theorem cancel_order_spec {oid : Nat} {s : Store} {o : Order} {ev : Event}
    (ho : findOrder s.orders oid = some o)
    (hev : findEvent s.events o.event_id = some ev)
    (hact : o.ticket_status ≠ TicketStatus.CANCELLED) :
    cancel_order oid s =
      { events :=
          setEvent s.events
            { ev with total_tickets := ev.total_tickets + o.tickets_purchased }
        orders :=
          s.orders.map (fun x =>
            if x.id == oid then { o with ticket_status := TicketStatus.CANCELLED }
            else x) } := by
  unfold cancel_order
  rw [ho]
  dsimp only
  rw [if_pos hact, hev]

theorem cancel_order_pres_id {oid : Nat} {o : Order}
    (hoid : o.id = oid) :
    ∀ x : Order,
      ((fun x => if x.id == oid
          then { o with ticket_status := TicketStatus.CANCELLED } else x) x).id =
        x.id := by
  intro x
  dsimp only
  split
  next hx => exact hoid.trans (eq_of_beq hx).symm
  next => rfl

theorem inv_cancel_order (oid : Nat) {s : Store} (h : Inv s) :
    Inv (cancel_order oid s) := by
  cases hfo : findOrder s.orders oid with
  | none =>
    have he : cancel_order oid s = s := by unfold cancel_order; rw [hfo]
    rwa [he]
  | some o =>
    by_cases hact : o.ticket_status = TicketStatus.CANCELLED
    · rwa [cancel_order_noop hfo hact]
    · cases hfe : findEvent s.events o.event_id with
      | none =>
        have he : cancel_order oid s = s := by
          unfold cancel_order
          rw [hfo]
          dsimp only
          rw [if_pos hact, hfe]
        rwa [he]
      | some ev =>
        rw [cancel_order_spec hfo hfe hact]
        intro x2 hx2 hactx evx hevx
        obtain ⟨x, hx, rfl⟩ := List.mem_map.mp hx2
        dsimp only at hactx hevx ⊢
        by_cases hid : (x.id == oid) = true
        · rw [if_pos hid] at hactx
          simp at hactx
        · rw [if_neg hid] at hactx hevx
          rw [findEvent_setEvent_map] at hevx
          cases hfx : findEvent s.events x.event_id with
          | none =>
            rw [hfx] at hevx
            simp at hevx
          | some evx0 =>
            rw [hfx] at hevx
            have hbase := h x hx hactx evx0 hfx
            have hevx2 :
                (if evx0.id == ev.id
                  then ({ ev with total_tickets :=
                          ev.total_tickets + o.tickets_purchased } : Event)
                  else evx0) = evx := by
              simpa using hevx
            by_cases hide : (evx0.id == ev.id) = true
            · have h1 : evx0.id = x.event_id := findEvent_id hfx
              have h2 : ev.id = o.event_id := findEvent_id hfe
              have h3 : x.event_id = o.event_id := by
                rw [← h1, eq_of_beq hide, h2]
              have h4 : evx0 = ev := by
                rw [h3] at hfx
                rw [hfx] at hfe
                exact (Option.some.injEq _ _).mp hfe
              rw [if_pos hide] at hevx2
              rw [← hevx2]
              simpa [h4] using hbase
            · rw [if_neg hide] at hevx2
              rw [← hevx2]
              exact hbase

theorem purchaseCommit_success {eid : Nat} {s : Store} {ev : Event}
    (now : Int) (uid : Nat) {q : Int}
    (hev : findEvent s.events eid = some ev) (hq : ¬ q > ev.total_tickets) :
    purchaseCommit now eid uid q s =
      ({ events := setEvent s.events (decrementedEvent ev q)
         orders := s.orders ++ [newOrder now uid q s ev] }, true) := by
  unfold purchaseCommit
  rw [hev]
  dsimp only
  rw [if_neg hq]

theorem purchaseCommit_fail {eid : Nat} {s : Store} {ev : Event}
    (now : Int) (uid : Nat) {q : Int}
    (hev : findEvent s.events eid = some ev) (hq : q > ev.total_tickets) :
    purchaseCommit now eid uid q s = (s, false) := by
  unfold purchaseCommit
  rw [hev]
  dsimp only
  rw [if_pos hq]

theorem inv_purchase (now : Int) (eid uid : Nat) (q : Int) {s : Store}
    (h : Inv s) : Inv (purchase_tickets now eid uid q s) := by
  unfold purchase_tickets
  dsimp only
  cases hfe : findEvent s.events eid with
  | none =>
    have he : purchaseCommit now eid uid q s = (s, false) := by
      unfold purchaseCommit
      rw [hfe]
    rw [he]
    simpa using h
  | some ev =>
    by_cases hq : q > ev.total_tickets
    · rw [purchaseCommit_fail now uid hfe hq]
      simpa using h
    · rw [purchaseCommit_success now uid hfe hq]
      simpa using inv_live_status now _

/-- C1: for every event processed by the Status Engine at clock value `now`:
if its current status is CANCELLED it stays CANCELLED when `now <= end_time`
and becomes INACTIVE when `now > end_time`; otherwise if `total_tickets`
is `<= 0` the new status is SOLDOUT; otherwise if `now <= end_time` the new
status is OPEN; otherwise INACTIVE — and whenever the status changes,
`status_date` is set to `now` (and is untouched otherwise). -/
theorem c1_event_status_rule (now : Int) (s : Store) :
    (live_status now s).events =
      s.events.map (fun e =>
        let ns :=
          if e.status = EventStatus.CANCELLED then
            if now ≤ e.end_time then EventStatus.CANCELLED
            else EventStatus.INACTIVE
          else if e.total_tickets ≤ 0 then EventStatus.SOLDOUT
          else if now ≤ e.end_time then EventStatus.OPEN
          else EventStatus.INACTIVE
        { e with
          status := ns
          status_date := if ns = e.status then e.status_date else now }) := by
  show s.events.map (stepEvent now) = _
  apply List.map_congr_left
  intro e _
  rw [stepEvent_eq, esRule_claim]

/-- C2: for every order processed by the Status Engine at clock value `now`,
using the freshly recomputed status of its parent event: if the parent is
CANCELLED the ticket status becomes CANCELLED; else if the parent is
INACTIVE it becomes INACTIVE; else if the order is currently CANCELLED it
stays CANCELLED while `now <= end_time` and becomes INACTIVE once
`now > end_time`; else it is ACTIVE when `now <= end_time` and INACTIVE
otherwise. -/
theorem c2_order_status_rule (now : Int) (s : Store) :
    (live_status now s).orders =
      s.orders.map (fun o =>
        match findEvent (live_status now s).events o.event_id with
        | none => o
        | some ev =>
          { o with
            ticket_status :=
              if ev.status = EventStatus.CANCELLED then TicketStatus.CANCELLED
              else if ev.status = EventStatus.INACTIVE then TicketStatus.INACTIVE
              else if o.ticket_status = TicketStatus.CANCELLED then
                if now ≤ ev.end_time then TicketStatus.CANCELLED
                else TicketStatus.INACTIVE
              else if now ≤ ev.end_time then TicketStatus.ACTIVE
              else TicketStatus.INACTIVE }) := by
  have hE : (live_status now s).events = s.events.map (stepEvent now) := rfl
  rw [hE]
  show s.orders.map (stepOrder now (s.events.map (stepEvent now))) = _
  apply List.map_congr_left
  intro o _
  cases hfe : findEvent (s.events.map (stepEvent now)) o.event_id with
  | none => rw [stepOrder_none hfe]
  | some ev =>
    rw [stepOrder_eq hfe]
    dsimp only
    rw [tsRule_claim]

/-- C3 counterexample: on a store holding one CANCELLED event whose end time
has passed and whose inventory is 0, running the Status Engine twice at the
same clock value 1 differs from running it once (the event goes to INACTIVE
on the first pass and on to SOLDOUT on the second). -/
theorem c3_counterexample :
    live_status 1 (live_status 1 c3Store) ≠ live_status 1 c3Store := by decide

/-- C3 amended: the Status Engine is idempotent at a fixed clock value `now`
on every store in which no event is simultaneously CANCELLED, past its end
time, and out of tickets (the one configuration where a second pass moves
the freshly INACTIVE event on to SOLDOUT). -/
theorem c3_amended_idempotent (now : Int) (s : Store)
    (h : ∀ e ∈ s.events,
      ¬(e.status = EventStatus.CANCELLED ∧ e.end_time < now ∧
          e.total_tickets ≤ 0)) :
    live_status now (live_status now s) = live_status now s := by
  have hE : (s.events.map (stepEvent now)).map (stepEvent now) =
      s.events.map (stepEvent now) := by
    rw [List.map_map]
    apply List.map_congr_left
    intro e he
    exact stepEvent_stable now e (h e he)
  unfold live_status
  simp only [Store.mk.injEq]
  constructor
  · exact hE
  · rw [hE, List.map_map]
    apply List.map_congr_left
    intro o _
    dsimp only [Function.comp]
    exact stepOrder_idem now _ o

/-- C3 amended, witness: the hypothesis and conclusion evaluated on a
concrete mid-sale store at clock value 5. -/
theorem c3_amended_witness :
    (∀ e ∈ sampleStore.events,
      ¬(e.status = EventStatus.CANCELLED ∧ e.end_time < 5 ∧
          e.total_tickets ≤ 0)) ∧
    live_status 5 (live_status 5 sampleStore) = live_status 5 sampleStore :=
  ⟨by decide, c3_amended_idempotent 5 sampleStore (by decide)⟩

/-- C4: for every event and every requested quantity `q <= total_tickets`,
the purchase succeeds and, at commit time (before any Status Engine pass),
creates one new Order with `purchase_ticket_price = ticket_price`,
`purchased_amount = ticket_price * q`, ticket status ACTIVE and
`booking_time = now`, decrements the `total_tickets` of the event by exactly `q`,
and sets the event status to SOLDOUT exactly when the remaining inventory
is 0. -/
theorem c4_purchase_success (now : Int) (eid uid : Nat) (q : Int) (s : Store)
    (ev : Event) (hev : findEvent s.events eid = some ev)
    (hq : q ≤ ev.total_tickets) :
    ∃ o : Order,
      purchaseCommit now eid uid q s =
        ({ events :=
             setEvent s.events
               { ev with
                 total_tickets := ev.total_tickets - q
                 status :=
                   if ev.total_tickets - q = 0 then EventStatus.SOLDOUT
                   else ev.status }
           orders := s.orders ++ [o] }, true) ∧
      o.purchase_ticket_price = ev.ticket_price ∧
      o.purchased_amount = ev.ticket_price * q ∧
      o.ticket_status = TicketStatus.ACTIVE ∧
      o.booking_time = now ∧
      o.tickets_purchased = q ∧
      findEvent (purchaseCommit now eid uid q s).1.events eid =
        some
          { ev with
            total_tickets := ev.total_tickets - q
            status :=
              if ev.total_tickets - q = 0 then EventStatus.SOLDOUT
              else ev.status } := by
  have hno : ¬ q > ev.total_tickets := by omega
  have hc := purchaseCommit_success now uid hev hno
  refine ⟨newOrder now uid q s ev, hc, rfl, rfl, rfl, rfl, rfl, ?_⟩
  rw [hc]
  exact findEvent_setEvent _ hev rfl

/-- C4 witness: on a concrete store, buying 3 of the 3 remaining tickets
succeeds, snapshots the order and drives the event to SOLDOUT. -/
theorem c4_witness :
    findEvent sampleStore.events 1 =
        some { id := 1, end_time := 10, total_tickets := 3, ticket_price := 7,
               status := EventStatus.OPEN, status_date := 0 } ∧
    (3 : Int) ≤ 3 ∧
    ∃ o : Order,
      purchaseCommit 4 1 9 3 sampleStore =
        ({ events :=
             setEvent sampleStore.events
               { id := 1, end_time := 10, total_tickets := 3 - 3,
                 ticket_price := 7,
                 status :=
                   if (3 : Int) - 3 = 0 then EventStatus.SOLDOUT
                   else EventStatus.OPEN,
                 status_date := 0 }
           orders := sampleStore.orders ++ [o] }, true) ∧
      o.purchase_ticket_price = 7 ∧
      o.purchased_amount = 7 * 3 ∧
      o.ticket_status = TicketStatus.ACTIVE ∧
      o.booking_time = 4 ∧
      o.tickets_purchased = 3 ∧
      findEvent (purchaseCommit 4 1 9 3 sampleStore).1.events 1 =
        some { id := 1, end_time := 10, total_tickets := 3 - 3,
               ticket_price := 7,
               status :=
                 if (3 : Int) - 3 = 0 then EventStatus.SOLDOUT
                 else EventStatus.OPEN,
               status_date := 0 } :=
  ⟨rfl, by decide,
    c4_purchase_success 4 1 9 3 sampleStore _ rfl (by decide)⟩

/-- C5: for every event and every requested quantity `q > total_tickets`,
the purchase fails: no order is created and nothing at all is mutated —
neither at commit time nor by the route, which on this path redirects
without calling the Status Engine. -/
theorem c5_purchase_insufficient (now : Int) (eid uid : Nat) (q : Int)
    (s : Store) (ev : Event) (hev : findEvent s.events eid = some ev)
    (hq : q > ev.total_tickets) :
    purchaseCommit now eid uid q s = (s, false) ∧
    purchase_tickets now eid uid q s = s := by
  have hc := purchaseCommit_fail now uid hev hq
  refine ⟨hc, ?_⟩
  unfold purchase_tickets
  rw [hc]
  rfl

/-- C5 witness: asking for 4 tickets when 3 remain fails and leaves the
store untouched. -/
theorem c5_witness :
    findEvent sampleStore.events 1 =
        some { id := 1, end_time := 10, total_tickets := 3, ticket_price := 7,
               status := EventStatus.OPEN, status_date := 0 } ∧
    (4 : Int) > 3 ∧
    purchaseCommit 4 1 9 4 sampleStore = (sampleStore, false) ∧
    purchase_tickets 4 1 9 4 sampleStore = sampleStore :=
  ⟨rfl, by decide, c5_purchase_insufficient 4 1 9 4 sampleStore _ rfl (by decide)⟩

/-- C6, the code bug, evaluated at the cancel scenario from the spec (an OPEN
event with ACTIVE orders of 3 and 5 tickets at price 10): cancelling
restocks 8 tickets, reports a refund of 80 and cancels both orders, but the
event status stays OPEN — the cancel branch of `update` (events.py
lines 120-144) never assigns `event.status = EventStatus.CANCELLED`, even
though its flash message and comments say the event has been cancelled and
both the reopen branch and the CANCELLED cases of `live_status` are
unreachable without it. -/
theorem c6_cancel_event_code_bug :
    ticketsToReturn 1 c6Store = 8 ∧
    totalRefund 1 c6Store = 80 ∧
    (findEvent (update_cancel_event 1 c6Store).events 1).map
        Event.total_tickets = some 8 ∧
    (∀ o ∈ (update_cancel_event 1 c6Store).orders,
      o.ticket_status = TicketStatus.CANCELLED) ∧
    (findEvent (update_cancel_event 1 c6Store).events 1).map Event.status =
      some EventStatus.OPEN := by decide

/-- C7: cancelling an order whose ticket status is not CANCELLED marks it
CANCELLED and adds exactly its `tickets_purchased` back onto the inventory of its
event, and a second cancellation is a no-op; cancelling an
already-CANCELLED order changes nothing. -/
theorem c7_cancel_order :
    (∀ (oid : Nat) (s : Store) (o : Order) (ev : Event),
      findOrder s.orders oid = some o →
      findEvent s.events o.event_id = some ev →
      o.ticket_status ≠ TicketStatus.CANCELLED →
        findOrder (cancel_order oid s).orders oid =
            some { o with ticket_status := TicketStatus.CANCELLED } ∧
          findEvent (cancel_order oid s).events o.event_id =
            some { ev with
                   total_tickets := ev.total_tickets + o.tickets_purchased } ∧
          cancel_order oid (cancel_order oid s) = cancel_order oid s) ∧
    (∀ (oid : Nat) (s : Store) (o : Order),
      findOrder s.orders oid = some o →
      o.ticket_status = TicketStatus.CANCELLED → cancel_order oid s = s) := by
  constructor
  · intro oid s o ev ho hev hact
    have hspec := cancel_order_spec ho hev hact
    have hfo2 : findOrder (cancel_order oid s).orders oid =
        some { o with ticket_status := TicketStatus.CANCELLED } := by
      rw [hspec]
      show findOrder (s.orders.map _) oid = _
      rw [findOrder_map _ (cancel_order_pres_id (findOrder_id ho)) oid s.orders,
        ho]
      simp [findOrder_id ho]
    refine ⟨hfo2, ?_, ?_⟩
    · rw [hspec]
      exact findEvent_setEvent _ hev rfl
    · exact cancel_order_noop hfo2 rfl
  · intro oid s o ho hc
    exact cancel_order_noop ho hc

/-- C7 witness: cancelling the 2-ticket ACTIVE order of the sample store
marks it CANCELLED, restocks the event from 3 to 5 tickets, and a repeat
cancellation changes nothing. -/
theorem c7_witness :
    findOrder sampleStore.orders 1 =
        some { id := 1, event_id := 1, user_id := 2, tickets_purchased := 2,
               purchase_ticket_price := 7, purchased_amount := 14,
               ticket_status := TicketStatus.ACTIVE, booking_time := 0 } ∧
    findEvent sampleStore.events 1 =
        some { id := 1, end_time := 10, total_tickets := 3, ticket_price := 7,
               status := EventStatus.OPEN, status_date := 0 } ∧
    findOrder (cancel_order 1 sampleStore).orders 1 =
        some { id := 1, event_id := 1, user_id := 2, tickets_purchased := 2,
               purchase_ticket_price := 7, purchased_amount := 14,
               ticket_status := TicketStatus.CANCELLED, booking_time := 0 } ∧
    findEvent (cancel_order 1 sampleStore).events 1 =
        some { id := 1, end_time := 10, total_tickets := 3 + 2,
               ticket_price := 7, status := EventStatus.OPEN,
               status_date := 0 } ∧
    cancel_order 1 (cancel_order 1 sampleStore) = cancel_order 1 sampleStore := by
  have h := c7_cancel_order.1 1 sampleStore
    { id := 1, event_id := 1, user_id := 2, tickets_purchased := 2,
      purchase_ticket_price := 7, purchased_amount := 14,
      ticket_status := TicketStatus.ACTIVE, booking_time := 0 }
    { id := 1, end_time := 10, total_tickets := 3, ticket_price := 7,
      status := EventStatus.OPEN, status_date := 0 }
    rfl rfl (by decide)
  exact ⟨rfl, rfl, h.1, h.2.1, h.2.2⟩

/-- C8: starting from a store with no orders, every store reachable by the
operations of the system (Status Engine pass, purchase route, cancel-order route,
cancel/reopen event submissions) satisfies the invariant that no order is
ACTIVE while its parent event is CANCELLED or INACTIVE. -/
theorem c8_reachable_invariant (s0 s : Store) (h0 : s0.orders = [])
    (hr : Reachable s0 s) : Inv s := by
  induction hr with
  | base =>
    intro o ho
    rw [h0] at ho
    cases ho
  | refresh now hr ih => exact inv_live_status now _
  | purchase now eid uid q hr ih => exact inv_purchase now eid uid q ih
  | cancelOrder oid hr ih => exact inv_cancel_order oid ih
  | cancelEvent now eid hr ih => exact inv_live_status now _
  | reopenEvent now eid hr ih => exact inv_live_status now _

/-- C8 witness: the invariant holds after purchasing 2 tickets on a fresh
one-event store. -/
theorem c8_witness :
    ({ events := [{ id := 1, end_time := 10, total_tickets := 3,
                    ticket_price := 7, status := EventStatus.OPEN,
                    status_date := 0 }]
       orders := [] } : Store).orders = [] ∧
    Inv (purchase_tickets 4 1 9 2
      { events := [{ id := 1, end_time := 10, total_tickets := 3,
                     ticket_price := 7, status := EventStatus.OPEN,
                     status_date := 0 }]
        orders := [] }) :=
  ⟨rfl,
    c8_reachable_invariant _ _ rfl (Reachable.purchase 4 1 9 2 Reachable.base)⟩

/-- C9: the registration password validator accepts only passwords of length
at least 8, with at least 3 of the 4 character classes, that do not contain
(case-insensitively) the first name, surname, or email local part whenever
that token is at least 3 characters long; and on the scenario from the spec
"abc12345" is rejected while "Abc12345!" is accepted. -/
theorem c9_password_policy :
    (∀ pwd fn sn em : List Char,
      validate_password pwd fn sn em = true →
        8 ≤ pwd.length ∧ 3 ≤ classCount pwd ∧
          ∀ token ∈ blockedTokens fn sn em,
            3 ≤ (pyStrip (pyLower token)).length →
              containsSub (pyLower pwd) (pyStrip (pyLower token)) = false) ∧
    validate_password "abc12345".data "John".data "Smith".data
        "john@example.com".data = false ∧
    validate_password "Abc12345!".data "John".data "Smith".data
        "john@example.com".data = true := by
  refine ⟨?_, by decide, by decide⟩
  intro pwd fn sn em h
  unfold validate_password at h
  split_ifs at h with h1 h2 h3
  refine ⟨by omega, by omega, ?_⟩
  intro token htok hlen
  rw [List.any_eq_true] at h3
  push_neg at h3
  have h4 := h3 token htok
  cases hb : containsSub (pyLower pwd) (pyStrip (pyLower token)) with
  | false => rfl
  | true =>
    exfalso
    apply h4
    dsimp only
    have hne : (pyStrip (pyLower token)).isEmpty = false := by
      cases he : pyStrip (pyLower token) with
      | nil => rw [he] at hlen; simp at hlen
      | cons a l => rfl
    rw [hne, hb]
    simp [hlen]

/-- C9 witness: a password satisfying the policy, with the conditions the
theorem extracts from acceptance evaluated at that input. -/
theorem c9_witness :
    validate_password "Wq7pz!rT2".data "John".data "Smith".data
        "john@example.com".data = true ∧
    (8 ≤ "Wq7pz!rT2".data.length ∧ 3 ≤ classCount "Wq7pz!rT2".data ∧
      ∀ token ∈ blockedTokens "John".data "Smith".data
          "john@example.com".data,
        3 ≤ (pyStrip (pyLower token)).length →
          containsSub (pyLower "Wq7pz!rT2".data)
            (pyStrip (pyLower token)) = false) :=
  ⟨by decide, c9_password_policy.1 _ _ _ _ (by decide)⟩

/-- C10 counterexample: on an OPEN event with 5 tickets and a ticket price
of 0, a purchase of -3 tickets succeeds and creates an order, but the
`purchased_amount` of the order is 0 · (-3) = 0, not negative as the claim
states for every event. -/
theorem c10_counterexample :
    (purchaseCommit 0 1 7 (-3) c10Store).2 = true ∧
    (purchaseCommit 0 1 7 (-3) c10Store).1.orders.map Order.purchased_amount =
      [0] ∧
    ¬ (∀ o ∈ (purchaseCommit 0 1 7 (-3) c10Store).1.orders,
        o.purchased_amount < 0) := by decide

/-- C10 amended: the purchase operation imposes no lower bound on the
quantity: a negative `q` passes the presence check of the form, the inventory
guard `q > total_tickets` is false whenever `total_tickets >= 0`, so the
purchase succeeds, creating an order with negative `tickets_purchased` and
`purchased_amount = ticket_price * q` — negative whenever the ticket price
is positive and 0 when the price is 0 — and the inventory of the event increases
by exactly `|q|` (so the SOLDOUT branch cannot fire). -/
theorem c10_negative_purchase_amended (now : Int) (eid uid : Nat) (q : Int)
    (s : Store) (ev : Event) (hev : findEvent s.events eid = some ev)
    (ht : 0 ≤ ev.total_tickets) (hq : q < 0) :
    purchaseFormValid q = true ∧
    ∃ o : Order,
      purchaseCommit now eid uid q s =
        ({ events :=
             setEvent s.events
               { ev with
                 total_tickets := ev.total_tickets - q
                 status :=
                   if ev.total_tickets - q = 0 then EventStatus.SOLDOUT
                   else ev.status }
           orders := s.orders ++ [o] }, true) ∧
      (if ev.total_tickets - q = 0 then EventStatus.SOLDOUT else ev.status) =
        ev.status ∧
      o.tickets_purchased = q ∧
      o.tickets_purchased < 0 ∧
      o.purchased_amount = ev.ticket_price * q ∧
      (0 < ev.ticket_price → o.purchased_amount < 0) ∧
      ev.total_tickets - q = ev.total_tickets + (q.natAbs : Int) ∧
      ev.total_tickets < ev.total_tickets - q := by
  have hno : ¬ q > ev.total_tickets := by omega
  refine ⟨?_, newOrder now uid q s ev,
    purchaseCommit_success now uid hev hno, ?_, rfl, hq, rfl, ?_, by omega,
    by omega⟩
  · have hq0 : q ≠ 0 := by omega
    simp [purchaseFormValid, hq0]
  · rw [if_neg (by omega)]
  · intro hp
    exact mul_neg_of_pos_of_neg hp hq

/-- C10 amended, witness: a purchase of -3 against the zero-priced event. -/
theorem c10_amended_witness :
    findEvent c10Store.events 1 =
        some { id := 1, end_time := 100, total_tickets := 5, ticket_price := 0,
               status := EventStatus.OPEN, status_date := 0 } ∧
    (0 : Int) ≤ 5 ∧ (-3 : Int) < 0 ∧
    (purchaseFormValid (-3) = true ∧
      ∃ o : Order,
        purchaseCommit 0 1 7 (-3) c10Store =
          ({ events :=
               setEvent c10Store.events
                 { id := 1, end_time := 100, total_tickets := 5 - (-3),
                   ticket_price := 0,
                   status :=
                     if (5 : Int) - (-3) = 0 then EventStatus.SOLDOUT
                     else EventStatus.OPEN,
                   status_date := 0 }
             orders := c10Store.orders ++ [o] }, true) ∧
        (if (5 : Int) - (-3) = 0 then EventStatus.SOLDOUT
          else EventStatus.OPEN) = EventStatus.OPEN ∧
        o.tickets_purchased = -3 ∧
        o.tickets_purchased < 0 ∧
        o.purchased_amount = 0 * (-3) ∧
        ((0 : Int) < 0 → o.purchased_amount < 0) ∧
        (5 : Int) - (-3) = 5 + ((-3 : Int).natAbs : Int) ∧
        (5 : Int) < 5 - (-3)) :=
  ⟨rfl, by decide, by decide,
    c10_negative_purchase_amended 0 1 7 (-3) c10Store _ rfl (by decide)
      (by decide)⟩

end FoodieVent
